import Mathlib

/-!
# Verification of `pph2_and_rank.py`

A shallow embedding of the core of `pph2_and_rank.py`: the PolyPhen2 job
polling state machine (`poll_for_polyphen2_results`), the UniProt metadata
lookup with its accession memo (`get_seqlen_and_gene`), result-file
ingestion (`update_db_with_results`), the per-gene scoring query
(`print_results`), and the top-level control flow of the script.

Network interactions are modelled by oracles: a list of already-fetched
status documents for the polling loop, a list of transport outcomes for
the UniProt fetches and for the result-file download.  Each definition
is annotated with the source lines it embeds.
-/

namespace PPH2

/-! ## Python string primitives

Helpers mirroring the Python string operations used by the script:
`str.strip()`, `str.split(sep)` and `int(...)`. -/

/-- Python whitespace, as used by `str.strip()` and `\s` in the `re` module
(ASCII mode): space, tab, newline, carriage return, vertical tab, form feed. -/
def isPyWS (c : Char) : Bool :=
  c = ' ' ∨ c = '\t' ∨ c = '\n' ∨ c = '\r' ∨ c = '\x0b' ∨ c = '\x0c'

/-- Python `str.strip()`: remove leading and trailing whitespace. -/
def pyStrip (s : String) : String :=
  String.mk (((s.toList.dropWhile isPyWS).reverse.dropWhile isPyWS).reverse)

/-- Split a character list on a separator character, keeping empty pieces,
like Python `str.split(sep)` (so `"".split(sep) = [""]`). -/
def splitOnChar (sep : Char) : List Char → List (List Char)
  | [] => [[]]
  | c :: cs =>
      let r := splitOnChar sep cs
      if c = sep then [] :: r
      else
        match r with
        | [] => [[c]]
        | g :: gs => (c :: g) :: gs

/-- Python `str.split(sep)` for a one-character separator. -/
def pySplit (sep : Char) (s : String) : List String :=
  (splitOnChar sep s.toList).map String.mk

/-- Value of a list of decimal digit characters. -/
def digitsToNat (ds : List Char) : Nat :=
  ds.foldl (fun a c => a * 10 + (c.toNat - '0'.toNat)) 0

/-- Python `int(s)` as a total function: strips whitespace, accepts an
optional sign followed by one or more digits; `none` models `ValueError`. -/
def pyInt? (s : String) : Option Int :=
  let t := ((s.toList.dropWhile isPyWS).reverse.dropWhile isPyWS).reverse
  match t with
  | [] => none
  | c :: rest =>
      let p : Bool × List Char :=
        if c = '-' then (true, rest) else if c = '+' then (false, rest) else (false, t)
      if p.2 ≠ [] ∧ p.2.all Char.isDigit then
        some ((if p.1 then -1 else 1) * (digitsToNat p.2 : Int))
      else none

/-! ## The polling state machine

Embeds `poll_for_polyphen2_results` (source lines 154-217).  A fetched and
scraped status page is abstracted as a `StatusDoc`: the text of the
`Batch N:` status cell (with the `Batch N:` prefix already stripped, as done
by the `re.sub` on line 189) together with the raw text of the adjacent
position cell, when such a cell exists, and whether a `Service Name:`
marker is present (line 179). -/

/-- The global `steps` list of the script (source lines 48-51). -/
def steps : List String :=
  ["(1/7) Validating input", "(2/7) Mapping genomic SNPs",
   "(3/7) Collecting output", "(4/7) Building MSA and annotating proteins",
   "(5/7) Collecting output", "(6/7) Predicting",
   "(7/7) Generating reports"]

/-- Python `list.index`: index of the first occurrence, `none` for the
`ValueError` raised when the element is absent (source line 190). -/
def listIndex (x : String) : List String → Option Nat
  | [] => none
  | y :: ys => if y = x then some 0 else (listIndex x ys).map (· + 1)

/-- One scraped status page. `status = some (stage text, position cell text)`
when a `Batch N:` cell was found; `serviceName` records whether the page has
a `Service Name:` marker (only consulted when `status = none`). -/
structure StatusDoc where
  status : Option (String × String)
  serviceName : Bool
deriving DecidableEq, Repr

/-- A stage-reporting status page. -/
def stageDoc (name pos : String) : StatusDoc := ⟨some (name, pos), false⟩

/-- The final status page (no `Batch N:` cell, `Service Name:` present). -/
def finishedDoc : StatusDoc := ⟨none, true⟩

/-- A transient busy page (no `Batch N:` cell, no `Service Name:` marker). -/
def transientDoc : StatusDoc := ⟨none, false⟩

/-- Observable events written to standard error by the polling loop:
`completed i` is the `"... steps[i] => Done."` line, `progress` the
in-stage progress-bar line (source lines 193, 196, 199, 201, 204). -/
inductive Event where
  | completed (i : Int)
  | progress (stage : String) (num den : Int)
deriving DecidableEq, Repr

/-- Fatal ends of the polling loop: the `RemoteException` raised after too
many transient polls (line 183), the `ValueError` from `steps.index` on an
unrecognized stage name (line 190), and the `IndexError` from `steps[...]`
on an out-of-range step counter (lines 193/201). -/
inductive PollErr where
  | serviceUnresponsive
  | unknownStage
  | indexError
deriving DecidableEq, Repr

/-- The loop state of `poll_for_polyphen2_results`: `curr` is `curr_step`
(starts at `-1`), `tries` the transient-poll counter, `maxpos` the value of
the `maxpos` local (set on every stage change, line 198). -/
structure PollState where
  curr : Int
  tries : Nat
  maxpos : Int
deriving DecidableEq, Repr

/-- `max_tries` (source line 158). -/
def max_tries : Nat := 10

/-- Result of processing one status page: keep looping, break out of the
loop (job finished), or die with an uncaught/raised error. -/
inductive StepRes where
  | cont (st : PollState) (evs : List Event)
  | finish (evs : List Event)
  | fatal (e : PollErr) (evs : List Event)
deriving DecidableEq, Repr

/-- Whether a step result continues the polling loop. -/
def StepRes.isCont : StepRes → Bool
  | .cont _ _ => true
  | _ => false

/-- `completed` events for every integer in `[lo, hi)`, the catch-up loop of
source lines 195-197 (and 203-205). -/
def completedBetween (lo hi : Int) : List Event :=
  (List.range (hi - lo).toNat).map (fun k => Event.completed (lo + (k : Int)))

/-- One iteration of the polling loop (source lines 162-200), as a function
of the loop state and the freshly scraped page.

* No status cell: `Service Name:` means done (line 179, `break`); otherwise
  a transient page increments `tries` and raises `RemoteException` once
  `tries >= max_tries` (lines 181-184).  Note `tries` is never reset.
* A status cell: the position is `int(...)` with `0` on `ValueError`
  (lines 187-188); the stage text must be in `steps` (line 190, else
  `ValueError`).  On a stage change, the previous stage (if any) is
  reported completed — `steps[curr_step]` raises `IndexError` when
  `curr_step` is above the last index, which is modelled by the range
  check (`curr` below `-1` is unreachable from the initial state) — then
  the catch-up loop completes skipped stages, and `maxpos` is reset
  (lines 191-198).  A progress line is always written (line 199). -/
def pollStep (st : PollState) (d : StatusDoc) : StepRes :=
  match d.status with
  | none =>
      if d.serviceName then .finish []
      else
        if st.tries + 1 ≥ max_tries then .fatal .serviceUnresponsive []
        else .cont { st with tries := st.tries + 1 } []
  | some (shortened, posCell) =>
      let pos : Int := (pyInt? posCell).getD 0
      match listIndex shortened steps with
      | none => .fatal .unknownStage []
      | some thisStep =>
          let this : Int := (thisStep : Int)
          if st.curr = this then
            .cont st [Event.progress shortened (st.maxpos - pos) st.maxpos]
          else if st.curr ≠ -1 ∧ ¬ (0 ≤ st.curr ∧ st.curr < 7) then
            .fatal .indexError []
          else
            let evs1 := if st.curr = -1 then [] else [Event.completed st.curr]
            let evs2 := completedBetween (st.curr + 1) this
            let curr' := max (st.curr + 1) this
            let maxpos := pos
            .cont { curr := curr', tries := st.tries, maxpos := maxpos }
              (evs1 ++ evs2 ++ [Event.progress shortened (maxpos - pos) maxpos])

/-- The events written after the loop breaks on a finished page (source
lines 201-205): one `Done` line for the current stage when one was observed
(line 201, `IndexError` when `curr_step` is out of range, modelled by
`none`), then one `Done` line for every stage from `curr_step` (or `0` when
none was observed) through the last stage. -/
def finishEvents (curr : Int) : Option (List Event) :=
  if curr = -1 then some (completedBetween 0 7)
  else if 0 ≤ curr ∧ curr < 7 then
    some (Event.completed curr :: completedBetween curr 7)
  else none

/-- How a whole polling run ended. -/
inductive RunOut where
  | fatal (e : PollErr)
  | finished
  | outOfDocs
deriving DecidableEq, Repr

/-- Outcome of a polling run: the emitted events, how it ended, how many
status pages were fetched, and the last loop state. -/
structure RunResult where
  events : List Event
  out : RunOut
  polls : Nat
  final : PollState
deriving DecidableEq, Repr

/-- Drive the polling loop over a list of status pages. -/
def pollRunAux (st : PollState) (docs : List StatusDoc) (acc : List Event)
    (n : Nat) : RunResult :=
  match docs with
  | [] => ⟨acc, .outOfDocs, n, st⟩
  | d :: ds =>
      match pollStep st d with
      | .cont st' evs => pollRunAux st' ds (acc ++ evs) (n + 1)
      | .finish evs =>
          match finishEvents st.curr with
          | some fevs => ⟨acc ++ evs ++ fevs, .finished, n + 1, st⟩
          | none => ⟨acc ++ evs, .fatal .indexError, n + 1, st⟩
      | .fatal e evs => ⟨acc ++ evs, .fatal e, n + 1, st⟩

/-- `poll_for_polyphen2_results` up to the result download: run the polling
loop from its initial state (`curr_step = -1`, `tries = 0`). -/
def pollRun (docs : List StatusDoc) : RunResult :=
  pollRunAux ⟨-1, 0, 0⟩ docs [] 0

/-- How many times the `completed` event for stage `i` was emitted. -/
def countCompleted (i : Int) (evs : List Event) : Nat :=
  evs.countP (fun e => e = Event.completed i)

/-! ## UniProt metadata lookup and the accession memo

Embeds `get_seqlen_and_gene` (source lines 105-124) and its driver
`update_db_with_seqlen_and_gene` (lines 228-240).  The two `re.match`
patterns of lines 117 and 119 are implemented directly as prefix parsers;
the HTTP fetch is an oracle: a list of transport outcomes, one consumed
per attempted request, where `none` is a timeout/IOError and
`some lines` a successfully fetched document. -/

/-- Match a literal string at the head of the input, returning the rest. -/
def eatLit : List Char → List Char → Option (List Char)
  | [], cs => some cs
  | _, [] => none
  | p :: ps, c :: cs => if c = p then eatLit ps cs else none

/-- Match `\s+` (one or more whitespace characters) at the head. -/
def eatWS1 : List Char → Option (List Char)
  | [] => none
  | c :: rest => if isPyWS c then some (rest.dropWhile isPyWS) else none

/-- `re.match(r'^SQ\s+SEQUENCE\s+(\d+)\s*AA;', line)`, returning the
captured digit group (source line 117). -/
def matchSQ (line : String) : Option String :=
  (eatLit "SQ".toList line.toList).bind fun cs =>
  (eatWS1 cs).bind fun cs =>
  (eatLit "SEQUENCE".toList cs).bind fun cs =>
  (eatWS1 cs).bind fun cs =>
  let ds := cs.takeWhile Char.isDigit
  let cs := cs.dropWhile Char.isDigit
  if ds = [] then none
  else (eatLit "AA;".toList (cs.dropWhile isPyWS)).map fun _ => String.mk ds

/-- `re.match(r'^GN   Name=([^;]+);', line)`, returning the captured
group (source line 119). -/
def matchGN (line : String) : Option String :=
  (eatLit "GN   Name=".toList line.toList).bind fun cs =>
  let nm := cs.takeWhile (fun c => c != ';')
  let rest := cs.dropWhile (fun c => c != ';')
  if nm = [] then none
  else
    match rest with
    | ';' :: _ => some (String.mk nm)
    | _ => none

/-- The `accid_cache` module global (source line 46): an association list
from accession id to the stored `[seqlen, gene]` pair. -/
abbrev Cache := List (String × (Option String × Option String))

/-- `accid_cache.get(accid)` (source line 107). -/
def cacheGet (cache : Cache) (k : String) : Option (Option String × Option String) :=
  match cache with
  | [] => none
  | (a, v) :: rest => if a = k then some v else cacheGet rest k

/-- The transport oracle for UniProt fetches: each attempted request
consumes the head; `none` is a transport failure. -/
abbrev Transport := List (Option (List String))

/-- The scanning loop of source lines 116-123: fold the fetched lines over
the `result` pair, overwriting a component on each regex match; as soon as
both components are set the loop breaks (second return component `true`),
which is the only point where the cache is written. -/
def scanLines : List String → Option String × Option String →
    (Option String × Option String) × Bool
  | [], r => (r, false)
  | l :: ls, r =>
      let r0 := match matchSQ l with | some g => some g | none => r.1
      let r1 := match matchGN l with | some g => some g | none => r.2
      if r0.isSome && r1.isSome then ((r0, r1), true)
      else scanLines ls (r0, r1)

/-- Decidable equality for `Except`, so that concrete runs of the fallible
functions below can be checked by `decide`. -/
instance instDecEqExcept {ε α : Type} [DecidableEq ε] [DecidableEq α] :
    DecidableEq (Except ε α)
  | .error a, .error b =>
      if h : a = b then isTrue (h ▸ rfl)
      else isFalse fun hh => h (Except.error.inj hh)
  | .error _, .ok _ => isFalse fun hh => Except.noConfusion hh
  | .ok _, .error _ => isFalse fun hh => Except.noConfusion hh
  | .ok a, .ok b =>
      if h : a = b then isTrue (h ▸ rfl)
      else isFalse fun hh => h (Except.ok.inj hh)

/-- The distinguishable `RemoteException` messages raised by the script
(the exact message strings are immaterial to the claims). -/
inductive RemoteMsg where
  | uniprotDown        -- line 115, UniProt did not answer the HTTP request
  | submitNoSid        -- line 150, submission page without a SID
  | pollUnresponsive   -- line 183, too many transient status polls
deriving DecidableEq, Repr

/-- Result of one `get_seqlen_and_gene` call: the `result` pair, the
updated cache, the remaining transport oracle, and the number of outbound
HTTP requests made (0 on a cache hit, 1 otherwise). -/
structure LookupRes where
  result : Option String × Option String
  cache : Cache
  rest : Transport
  attempts : Nat
deriving DecidableEq, Repr

/-- `get_seqlen_and_gene(accid)` (source lines 105-124).  A transport
failure raises `RemoteException` immediately (lines 114-115): there is no
retry.  The cache is consulted first (lines 107-109) and written only by
the both-fields-found break inside the scan (lines 121-123). -/
def get_seqlen_and_gene (t : Transport) (cache : Cache) (accid : String) :
    Except RemoteMsg LookupRes :=
  match cacheGet cache accid with
  | some v => .ok ⟨v, cache, t, 0⟩
  | none =>
      match t with
      | [] => .error .uniprotDown
      | none :: _ => .error .uniprotDown
      | some lines :: rest =>
          let s := scanLines lines (none, none)
          .ok ⟨s.1, (if s.2 then (accid, s.1) :: cache else cache), rest, 1⟩

/-- Result of enriching a whole accession list: the per-accession `result`
pairs in order, the final cache, and the remaining transport oracle. -/
structure EnrichRes where
  results : List (Option String × Option String)
  cache : Cache
  rest : Transport
deriving DecidableEq, Repr

/-- The per-row loop of `update_db_with_seqlen_and_gene` (source lines
234-239), restricted to the fetched accession ids: look each one up in
turn, threading the cache and the transport oracle, and count the
outbound requests (second component).  A raised `RemoteException`
propagates (uncaught by this function in the source). -/
def enrichAll (t : Transport) (cache : Cache) :
    List String → Except RemoteMsg EnrichRes × Nat
  | [] => (.ok ⟨[], cache, t⟩, 0)
  | a :: as =>
      match get_seqlen_and_gene t cache a with
      | .error m => (.error m, 1)
      | .ok l =>
          match enrichAll l.rest l.cache as with
          | (.error m, n) => (.error m, l.attempts + n)
          | (.ok e, n) => (.ok ⟨l.result :: e.results, e.cache, e.rest⟩, l.attempts + n)

/-! ## Result ingestion

Embeds `update_db_with_results` (source lines 219-226). -/

/-- The per-line cell split: split on tab and strip each cell
(source line 223). -/
def pyCells (row : String) : List String :=
  (pySplit '\t' row).map pyStrip

/-- The body of the ingestion loop for one line (source lines 223-226):
fewer than 17 cells stages nothing; otherwise the cells at indices
6, 7, 8, 9 and 16 are staged as one record. -/
def parseLine (row : String) : Option (String × String × String × String × String) :=
  let cells := pyCells row
  if cells.length < 17 then none
  else some (cells.getD 6 "", cells.getD 7 "", cells.getD 8 "",
             cells.getD 9 "", cells.getD 16 "")

/-- `update_db_with_results(results_file)` (source lines 219-226): split on
newlines, skip the header line, and stage one record per qualifying line,
in order. -/
def update_db_with_results (results_file : String) :
    List (String × String × String × String × String) :=
  ((pySplit '\n' results_file).drop 1).filterMap parseLine

/-! ## The staging table and the ranking query

Embeds the SQLite table `t` (source lines 61-70) as a list of rows, and
`print_results` (source lines 242-249).  The query is

  `SELECT gene, (SUM(pph2_score)/seqlen*1000) AS score
   FROM t WHERE pph2_score IS NOT NULL GROUP BY gene ORDER BY score DESC`

Note the `WHERE` clause only excludes rows with a NULL score: rows whose
`gene` or `seqlen` stayed NULL are still grouped and printed.  SQLite
semantics modelled here: `GROUP BY` treats NULLs as equal (one NULL-gene
group); the bare `seqlen` column in an aggregate query takes its value
from an unspecified row of the group, modelled as the last row in table
order; division by NULL or by zero yields NULL; `ORDER BY ... DESC` puts
NULL scores last.  REAL arithmetic is idealized as rational arithmetic. -/

/-- One row of the staging table `t` (source lines 61-70); `NULL`able
columns are `Option`s. -/
structure DbRow where
  gene : Option String
  accid : String
  seqlen : Option Int
  seqpos : String
  aa1 : String
  aa2 : String
  pph2_score : Option ℚ
deriving DecidableEq, Repr

/-- The rows selected by `WHERE pph2_score IS NOT NULL`. -/
def scoredOf (rows : List DbRow) : List DbRow :=
  rows.filter (fun r => r.pph2_score.isSome)

/-- The group keys produced by `GROUP BY gene` (NULL genes form one group;
each distinct value yields exactly one output row). -/
def geneKeys (rows : List DbRow) : List (Option String) :=
  ((scoredOf rows).map DbRow.gene).dedup

/-- The rows of one gene group. -/
def groupRows (rows : List DbRow) (g : Option String) : List DbRow :=
  (scoredOf rows).filter (fun r => r.gene = g)

/-- The `seqlen` the query reads for a group: SQLite takes the bare column
from an unspecified row of the group; modelled as the last row in table
order. -/
def groupSeqlen (rows : List DbRow) (g : Option String) : Option Int :=
  match (groupRows rows g).getLast? with
  | some r => r.seqlen
  | none => none

/-- `SUM(pph2_score)/seqlen*1000` for one group: NULL when the group's
`seqlen` is NULL (or zero, SQLite division by zero being NULL). -/
def groupScore (rows : List DbRow) (g : Option String) : Option ℚ :=
  match groupSeqlen rows g with
  | none => none
  | some L =>
      if L = 0 then none
      else some ((((groupRows rows g).map (fun r => r.pph2_score.getD 0)).sum)
                    / (L : ℚ) * 1000)

/-- One output line per group, before sorting. -/
def rankRows (rows : List DbRow) : List (Option String × Option ℚ) :=
  (geneKeys rows).map (fun g => (g, groupScore rows g))

/-- `a ≤ b` on scores with NULL below every value (so that a descending
sort puts NULL scores last). -/
def scoreLeB (a b : Option ℚ) : Bool :=
  match a, b with
  | none, _ => true
  | some _, none => false
  | some x, some y => decide (x ≤ y)

/-- `ORDER BY score DESC`: the row ordering used to sort the output. -/
def rowGe (a b : Option String × Option ℚ) : Prop :=
  scoreLeB b.2 a.2 = true

instance : DecidableRel rowGe := fun a b => instDecidableEqBool (scoreLeB b.2 a.2) true

/-- `print_results()` (source lines 242-249): the grouped rows sorted by
score descending, one `(gene, score)` pair per output line. -/
def print_results (rows : List DbRow) : List (Option String × Option ℚ) :=
  List.insertionSort rowGe (rankRows rows)

/-! ## The top-level flow

Embeds the `__main__` block (source lines 257-300): option handling is
abstracted to its two observable outcomes (`argsBad` for a `getopt` error
raising `LocalException`, and whether a `-s SID` was supplied), the
network is abstracted to the oracles already used above, and the
observable behaviour is the ordered list of outbound operations plus the
final termination state.  The top level catches `RemoteException` and
`LocalException`, writes `str(e)` to standard error and then simply falls
off the end of the script — the process exit status is 0.  Uncaught
errors (`ValueError`/`IndexError` from the polling loop) produce a
traceback and a non-zero exit status. -/

/-- Outbound operations, in the order the script performs them. -/
inductive Action where
  | submit
  | poll
  | fetchResult
  | lookup
  | printOut
deriving DecidableEq, Repr

/-- The exceptions caught by the top-level handler (source line 299). -/
inductive Exc where
  | remote (m : RemoteMsg)
  | localErr
deriving DecidableEq, Repr

/-- Uncaught Python errors that escape the handler. -/
inductive PyError where
  | valueError
  | indexError
deriving DecidableEq, Repr

/-- How one modelled run of the script terminates. -/
inductive TopLevel where
  | normal (stdoutRows : List (Option String × Option ℚ))
  | caughtError (e : Exc)
  | crashed (p : PyError)
deriving DecidableEq, Repr

/-- Process exit status of a terminated run: the handler at lines 299-300
returns normally after writing the message, so caught exceptions exit
with 0; an uncaught error exits non-zero. -/
def exitCodeOf : TopLevel → Nat
  | .normal _ => 0
  | .caughtError _ => 0
  | .crashed _ => 1

/-- The ranking rows written to standard output. -/
def stdoutOf : TopLevel → List (Option String × Option ℚ)
  | .normal rows => rows
  | .caughtError _ => []
  | .crashed _ => []

/-- Whether anything was written to standard error at termination
(the `str(e)` message, or a traceback). -/
def stderrHasMessage : TopLevel → Bool
  | .normal _ => false
  | .caughtError _ => true
  | .crashed _ => true

/-- How the pipeline body (the `try` block) ends: a value, a caught
exception, an uncaught error, or blocking forever (modelled when an
oracle is exhausted). -/
inductive PipeRes where
  | ok (rows : List (Option String × Option ℚ))
  | caught (e : Exc)
  | crashed (p : PyError)
  | hang
deriving DecidableEq, Repr

/-- The environment of one run: invocation outcome and network oracles. -/
structure RunEnv where
  argsBad : Bool
  sid : Option String
  submitResp : Except RemoteMsg String
  statusDocs : List StatusDoc
  resultFetches : List (Option String)
  metaTransport : Transport
deriving Repr

/-- The result-download loop (source lines 207-214): fetch until a
non-empty payload arrives; a transport failure or an empty payload just
retries.  Returns the number of attempts and the payload (`none` when the
oracle is exhausted, i.e. the loop blocks forever). -/
def fetchResultLoop : List (Option String) → Nat × Option String
  | [] => (0, none)
  | r :: rs =>
      match r with
      | some s =>
          if s ≠ "" then (1, some s)
          else
            let p := fetchResultLoop rs
            (p.1 + 1, p.2)
      | none =>
          let p := fetchResultLoop rs
          (p.1 + 1, p.2)

/-- A very small decimal parser standing in for SQLite's numeric affinity
when the score text of a staged record is read back as a REAL; claims do
not depend on score values, so unparseable text is mapped to 0. -/
def pyDecimal? (s : String) : Option ℚ :=
  let t := ((s.toList.dropWhile isPyWS).reverse.dropWhile isPyWS).reverse
  let p : Bool × List Char :=
    match t with
    | '-' :: rest => (true, rest)
    | '+' :: rest => (false, rest)
    | _ => (false, t)
  match splitOnChar '.' p.2 with
  | [a] =>
      if a ≠ [] ∧ a.all Char.isDigit then
        some ((if p.1 then -1 else 1) * (digitsToNat a : ℚ))
      else none
  | [a, b] =>
      if a ≠ [] ∧ a.all Char.isDigit ∧ b ≠ [] ∧ b.all Char.isDigit then
        some ((if p.1 then -1 else 1) *
          ((digitsToNat a : ℚ) + (digitsToNat b : ℚ) / ((10 : ℚ) ^ b.length)))
      else none
  | _ => none

/-- A staged record as a table row (gene and seqlen start NULL,
source lines 61-70 and 226). -/
def mkRow (tup : String × String × String × String × String) : DbRow :=
  { gene := none, accid := tup.1, seqlen := none, seqpos := tup.2.1,
    aa1 := tup.2.2.1, aa2 := tup.2.2.2.1,
    pph2_score := some ((pyDecimal? tup.2.2.2.2).getD 0) }

/-- Write the enrichment results back onto the scored rows, in order
(the `UPDATE ... WHERE id=?` of source line 239): the i-th fetched result
pair updates the i-th scored row; a digit-string seqlen becomes an
INTEGER under SQLite affinity. -/
def applyEnrich : List DbRow → List (Option String × Option String) → List DbRow
  | [], _ => []
  | r :: rs, res =>
      if r.pph2_score.isSome then
        match res with
        | p :: res' =>
            { r with seqlen := (p.1.bind String.toNat?).map Int.ofNat,
                     gene := p.2 } :: applyEnrich rs res'
        | [] => r :: applyEnrich rs []
      else r :: applyEnrich rs res

/-- `update_db_with_seqlen_and_gene()` (source lines 228-240): enrich every
row with a non-NULL score, counting outbound lookups. -/
def update_db_with_seqlen_and_gene (t : Transport) (rows : List DbRow) :
    Except RemoteMsg (List DbRow) × Nat :=
  let targets := rows.filter (fun r => r.pph2_score.isSome)
  match enrichAll t [] (targets.map (fun r => r.accid)) with
  | (.error m, n) => (.error m, n)
  | (.ok e, n) => (.ok (applyEnrich rows e.results), n)

/-- The body of the `try` block from the poll onwards (source lines
295-298), given a session id is in hand. -/
def pipelineFromPoll (env : RunEnv) : PipeRes × List Action :=
  let pr := pollRun env.statusDocs
  let pollActs := List.replicate pr.polls Action.poll
  match pr.out with
  | .fatal .serviceUnresponsive => (.caught (.remote .pollUnresponsive), pollActs)
  | .fatal .unknownStage => (.crashed .valueError, pollActs)
  | .fatal .indexError => (.crashed .indexError, pollActs)
  | .outOfDocs => (.hang, pollActs)
  | .finished =>
      let f := fetchResultLoop env.resultFetches
      let fActs := List.replicate f.1 Action.fetchResult
      match f.2 with
      | none => (.hang, pollActs ++ fActs)
      | some txt =>
          let rows := (update_db_with_results txt).map mkRow
          match update_db_with_seqlen_and_gene env.metaTransport rows with
          | (.error m, n) =>
              (.caught (.remote m), pollActs ++ fActs ++ List.replicate n Action.lookup)
          | (.ok rows', n) =>
              (.ok (print_results rows'),
               pollActs ++ fActs ++ List.replicate n Action.lookup ++ [Action.printOut])

/-- The whole `try` block (source lines 263-298): a `getopt` error raises
`LocalException` before any network activity; without a supplied SID the
batch is submitted first (lines 291-294); a supplied SID goes straight to
polling (line 295). -/
def runPipeline (env : RunEnv) : PipeRes × List Action :=
  if env.argsBad then (.caught .localErr, [])
  else
    match env.sid with
    | some _ => pipelineFromPoll env
    | none =>
        match env.submitResp with
        | .error m => (.caught (.remote m), [Action.submit])
        | .ok _ =>
            let p := pipelineFromPoll env
            (p.1, Action.submit :: p.2)

/-- The script including the top-level handler (source lines 299-300):
caught exceptions print `str(e)` and the script ends normally (exit 0);
uncaught errors crash (exit 1); `none` models a run that blocks forever
on the network. -/
def main_flow (env : RunEnv) : Option TopLevel × List Action :=
  match runPipeline env with
  | (.ok rows, t) => (some (.normal rows), t)
  | (.caught e, t) => (some (.caughtError e), t)
  | (.crashed p, t) => (some (.crashed p), t)
  | (.hang, t) => (none, t)

/-! ## Concrete inputs used by counterexamples and witnesses -/

/-- A UniProt document carrying only a sequence length (no gene name), so
the both-found break of lines 121-123 never fires. -/
def docSQonly : List String := ["SQ   SEQUENCE   100 AA;"]

/-- A UniProt document carrying both a gene name and a sequence length. -/
def docBoth : List String := ["GN   Name=BRCA1;", "SQ   SEQUENCE   1863 AA;"]

/-- The two-snapshot poll sequence of claim C1's failing input: one stage
report, then the finished page. -/
def docsC1 : List StatusDoc := [stageDoc "(1/7) Validating input" "5", finishedDoc]

/-- The poll sequence of claim C2's counterexample: stage 2 observed, then
two regressed snapshots reporting stage 1. -/
def docsC2 : List StatusDoc :=
  [stageDoc "(3/7) Collecting output" "9",
   stageDoc "(2/7) Mapping genomic SNPs" "4",
   stageDoc "(2/7) Mapping genomic SNPs" "3"]

/-- The poll sequence of claim C3's counterexample: 5 transient polls, one
stage report, 5 more transient polls (only 5 consecutive at any point). -/
def docsC3 : List StatusDoc :=
  List.replicate 5 transientDoc
    ++ stageDoc "(1/7) Validating input" "5" :: List.replicate 5 transientDoc

/-- A table with a single staged record whose gene and sequence length
never resolved. -/
def rowsC6 : List DbRow := [⟨none, "P1", none, "", "", "", some 1⟩]

/-- A table with two scored records of the same resolved gene and
sequence length. -/
def rowsW : List DbRow :=
  [⟨some "BRCA1", "P38398", some 1863, "42", "A", "V", some (9/10)⟩,
   ⟨some "BRCA1", "P38398", some 1863, "43", "C", "G", some (8/10)⟩]

/-- The run environment of claim C8's counterexample: a supplied SID and a
status oracle of 10 transient pages. -/
def envC8 : RunEnv := ⟨false, some "S", .ok "S", List.replicate 10 transientDoc, [], []⟩

/-- A run environment with a supplied SID whose poll oracle finishes at
once (the result download then blocks: the oracle is empty). -/
def envC9 : RunEnv := ⟨false, some "S", .ok "S", [finishedDoc], [], []⟩

/-- A result file for claim C7's witness: a header line, one full data
line whose fields 6-9 and 16 are `P12345, 42, A, V, 0.95`, and one
16-field line. -/
def fileC7 : String :=
  "#header\na\tb\tc\td\te\tf\t P12345 \t42\tA\tV\tk\tl\tm\tn\to\tp\t0.95\na\tb\tc\td\te\tf\tP99999\t1\tquébec\tV\tk\tl\tm\tn\to\tp"

/-- The 17-field data line of `fileC7`. -/
def rowC7 : String := "a\tb\tc\td\te\tf\t P12345 \t42\tA\tV\tk\tl\tm\tn\to\tp\t0.95"

/-- The 16-field line of `fileC7`. -/
def rowC7short : String := "a\tb\tc\td\te\tf\tP99999\t1\tquébec\tV\tk\tl\tm\tn\to\tp"

end PPH2

namespace PPH2

/-! ## Helper lemmas -/

/-- `completedBetween` over an empty interval is empty. -/
theorem completedBetween_eq_nil {lo hi : Int} (h : hi ≤ lo) :
    completedBetween lo hi = [] := by
  unfold completedBetween
  rw [Int.toNat_eq_zero.mpr (by omega)]
  rfl

/-! ## Claim C1 -/

/-- Claim C1 (code_bug evidence): the claimed invariant — every stage's
"completed" event is emitted exactly once — fails on the code.  On the
poll sequence "stage 0 observed, then finished", the run finishes normally
but the completed event for stage 0 is emitted twice (once by the write at
source line 201, once again by the loop at lines 203-205, which starts at
the same index), while stages 1-6 are emitted once each. -/
theorem c1_code_behavior :
    ((List.range 7).map
        (fun i => countCompleted (i : Int) (pollRun docsC1).events))
      = [2, 1, 1, 1, 1, 1, 1]
    ∧ (pollRun docsC1).out = RunOut.finished := by decide

/-! ## Claim C2 -/

/-- Claim C2 is false on the code: after observing stage 2, two snapshots
regressing to stage 1 raise nothing — the run keeps polling (all three
pages are consumed and the loop is still live, waiting for more). -/
theorem c2_counterexample :
    (pollRun docsC2).out = RunOut.outOfDocs ∧ (pollRun docsC2).polls = 3 := by decide

/-- Claim C2 as amended: on a snapshot reporting a stage strictly below
the current stage (itself in range), the state machine raises no error
and keeps polling; it emits a "completed" event for the *current* stage,
sets `curr_step := curr_step + 1`, leaves the transient counter unchanged,
and resets `maxpos` to the snapshot's position. -/
theorem c2_amended (st : PollState) (name c : String) (b : Bool) (i : Nat)
    (hname : listIndex name steps = some i) (hlt : (i : Int) < st.curr)
    (h0 : 0 ≤ st.curr) (h7 : st.curr < 7) :
    pollStep st ⟨some (name, c), b⟩
      = .cont ⟨st.curr + 1, st.tries, (pyInt? c).getD 0⟩
          [Event.completed st.curr,
           Event.progress name 0 ((pyInt? c).getD 0)] := by
  have hne : ¬ st.curr = (i : Int) := by omega
  have hm1 : ¬ st.curr = -1 := by omega
  simp only [pollStep, hname]
  rw [if_neg hne, if_neg (by push_neg; intro _; exact ⟨h0, h7⟩)]
  simp only [if_neg hm1, completedBetween_eq_nil (by omega : (i : Int) ≤ st.curr + 1),
    sub_self, List.nil_append, List.singleton_append]
  rw [max_eq_left (by omega : (i : Int) ≤ st.curr + 1)]

/-- Witness for the amended claim C2, at the concrete regression from
stage 2 to stage 1. -/
theorem c2_amended_witness :
    pollStep ⟨2, 3, 9⟩ ⟨some ("(2/7) Mapping genomic SNPs", "4"), false⟩
      = .cont ⟨3, 3, 4⟩
          [Event.completed 2, Event.progress "(2/7) Mapping genomic SNPs" 0 4] :=
  c2_amended ⟨2, 3, 9⟩ "(2/7) Mapping genomic SNPs" "4" false 1
    (by decide) (by decide) (by decide) (by decide)

/-! ## Claim C3 -/

/-- Claim C3 is false on the code: the transient counter is never reset by
stage-reporting snapshots, so 5 transients, a stage report, and 5 more
transients (never more than 5 consecutive) still hit the bound — the 10th
cumulative transient poll (the 11th poll overall) raises
`ServiceUnresponsive`, where the claim requires the run to survive. -/
theorem c3_counterexample :
    (pollRun docsC3).out = RunOut.fatal PollErr.serviceUnresponsive
    ∧ (pollRun docsC3).polls = 11 := by decide

/-- A stage-reporting snapshot never changes the transient counter (there
is no reset in the source). -/
theorem pollStep_stage_tries (st : PollState) (name c : String) (b : Bool)
    (st' : PollState) (evs : List Event)
    (h : pollStep st ⟨some (name, c), b⟩ = .cont st' evs) : st'.tries = st.tries := by
  simp only [pollStep] at h
  split at h
  · cases h
  · split at h
    · cases h; rfl
    · split at h
      · cases h
      · cases h; rfl

/-- A transient snapshot below the bound increments the counter and keeps
polling. -/
theorem pollStep_transient_ok (st : PollState) (h : st.tries + 1 < max_tries) :
    pollStep st transientDoc = .cont ⟨st.curr, st.tries + 1, st.maxpos⟩ [] := by
  simp [pollStep, transientDoc, Nat.not_le.mpr h]

/-- Claim C3 as amended: the transient-poll counter is incremented on each
transient snapshot and never reset — stage-reporting snapshots leave it
unchanged — and the run fails with `ServiceUnresponsive` on the poll at
which the cumulative count reaches the bound of 10; in particular, after
10 consecutive transient polls from the start the run has failed after
exactly 10 polls, whatever pages follow (no 11th poll is performed). -/
theorem c3_amended :
    (∀ rest : List StatusDoc,
        pollRun (List.replicate 10 transientDoc ++ rest)
          = ⟨[], .fatal .serviceUnresponsive, 10, ⟨-1, 9, 0⟩⟩)
    ∧ (∀ (st : PollState) (name c : String) (b : Bool) (st' : PollState)
          (evs : List Event),
        pollStep st ⟨some (name, c), b⟩ = .cont st' evs → st'.tries = st.tries)
    ∧ (∀ st : PollState, st.tries + 1 < max_tries →
        pollStep st transientDoc = .cont ⟨st.curr, st.tries + 1, st.maxpos⟩ []) :=
  ⟨fun _ => rfl, pollStep_stage_tries, pollStep_transient_ok⟩

/-- Witness for the amended claim C3: ten transient polls from the start
fail after exactly 10 polls even with a finished page queued behind them,
and a first transient poll just increments the counter. -/
theorem c3_amended_witness :
    pollRun (List.replicate 10 transientDoc ++ [finishedDoc])
      = ⟨[], .fatal .serviceUnresponsive, 10, ⟨-1, 9, 0⟩⟩
    ∧ pollStep ⟨-1, 0, 0⟩ transientDoc = .cont ⟨-1, 1, 0⟩ [] :=
  ⟨c3_amended.1 [finishedDoc], c3_amended.2.2 ⟨-1, 0, 0⟩ (by decide)⟩

/-! ## Claim C4 -/

/-- Claim C4 is false on the code: the memo is written only when *both*
fields are found.  With a UniProt document carrying only a sequence
length, two records sharing accession `P12345` trigger two outbound
lookups, not one. -/
theorem c4_counterexample :
    (enrichAll [some docSQonly, some docSQonly] [] ["P12345", "P12345"]).2 = 2 := by
  decide

/-- A key at the head of the cache is found. -/
theorem cacheGet_head (a : String) (v : Option String × Option String) (c : Cache) :
    cacheGet ((a, v) :: c) a = some v := by
  simp [cacheGet]

/-- Lookups of a memoized accession make no outbound request, for any
number of repeats. -/
theorem enrichAll_cached (a : String) (v : Option String × Option String)
    (n : Nat) : ∀ (t : Transport) (cache : Cache), cacheGet cache a = some v →
    enrichAll t cache (List.replicate n a)
      = (.ok ⟨List.replicate n v, cache, t⟩, 0) := by
  induction n with
  | zero => intro t cache _; rfl
  | succ n ih =>
      intro t cache h
      simp only [List.replicate_succ, enrichAll, get_seqlen_and_gene, h]
      rw [ih t cache h]

/-- When the scan never finds both fields, nothing is memoized and every
repeat of the accession triggers its own outbound request. -/
theorem enrichAll_nofind (lines : List String) (a : String)
    (r : Option String × Option String)
    (h : scanLines lines (none, none) = (r, false)) (n : Nat) :
    enrichAll (List.replicate n (some lines)) [] (List.replicate n a)
      = (.ok ⟨List.replicate n r, [], []⟩, n) := by
  induction n with
  | zero => rfl
  | succ n ih =>
      simp only [List.replicate_succ, enrichAll, get_seqlen_and_gene, cacheGet, h]
      rw [if_neg Bool.false_ne_true, ih]
      simp only [Prod.mk.injEq]
      exact ⟨trivial, by omega⟩

/-- Claim C4 as amended: the lookup result is memoized only when both the
sequence length and the gene symbol are found (the point at which the scan
breaks); in that case any number of records sharing the accession trigger
exactly one outbound lookup, but when either field is missing nothing is
cached and each record sharing the accession triggers its own outbound
lookup. -/
theorem c4_amended (lines : List String) (accid : String) (n : Nat)
    (r : Option String × Option String) :
    (scanLines lines (none, none) = (r, true) →
        (enrichAll (List.replicate (n + 1) (some lines)) []
            (List.replicate (n + 1) accid)).2 = 1)
    ∧ (scanLines lines (none, none) = (r, false) →
        (enrichAll (List.replicate (n + 1) (some lines)) []
            (List.replicate (n + 1) accid)).2 = n + 1) := by
  constructor
  · intro h
    simp only [List.replicate_succ, enrichAll, get_seqlen_and_gene, cacheGet, h]
    rw [if_pos trivial, enrichAll_cached accid r n _ _ (cacheGet_head accid r [])]
  · intro h
    rw [enrichAll_nofind lines accid r h (n + 1)]

/-- Witness for the amended claim C4: with both fields present one lookup
serves two records; with only the sequence length present each record
triggers its own lookup. -/
theorem c4_amended_witness :
    (enrichAll (List.replicate 2 (some docBoth)) [] (List.replicate 2 "P12345")).2 = 1
    ∧ (enrichAll (List.replicate 2 (some docSQonly)) []
        (List.replicate 2 "P12345")).2 = 2 :=
  ⟨(c4_amended docBoth "P12345" 1 (some "1863", some "BRCA1")).1 (by decide),
   (c4_amended docSQonly "P12345" 1 (some "100", none)).2 (by decide)⟩

/-! ## Claim C5 -/

/-- Claim C5 is false on the code: a single transport failure of the
UniProt fetch raises `RemoteException` at once — the successful response
queued right behind it is never consumed (no retry happens). -/
theorem c5_counterexample :
    get_seqlen_and_gene [none, some docBoth] [] "P12345"
      = .error RemoteMsg.uniprotDown := by decide

/-- Claim C5 as amended: a transport-level failure of a metadata lookup is
*not* retried; for any uncached accession the first failing request
surfaces `RemoteException` to the caller immediately. -/
theorem c5_amended (t : Transport) (cache : Cache) (accid : String)
    (h : cacheGet cache accid = none) :
    get_seqlen_and_gene (none :: t) cache accid = .error RemoteMsg.uniprotDown := by
  simp [get_seqlen_and_gene, h]

/-- Witness for the amended claim C5 at a concrete uncached accession. -/
theorem c5_amended_witness :
    get_seqlen_and_gene (none :: [some docBoth]) [] "P12345"
      = .error RemoteMsg.uniprotDown :=
  c5_amended [some docBoth] [] "P12345" rfl

/-! ## Claim C6 -/

/-- Claim C6 is false on the code: the query's `WHERE` clause only drops
NULL scores, so a record whose gene and sequence length never resolved
still produces an output row — the NULL-gene group, with a NULL score —
where the claim requires it to be absent. -/
theorem c6_counterexample :
    print_results rowsC6 = [(none, (none : Option ℚ))]
    ∧ print_results rowsC6 ≠ [] := by decide

/-- Sorting the grouped rows is a permutation. -/
theorem print_results_perm (rows : List DbRow) :
    (print_results rows).Perm (rankRows rows) :=
  List.perm_insertionSort _ _

/-- Counting an element of a duplicate-free list with `==`. -/
theorem countP_key_of_nodup (l : List (Option String)) (hl : l.Nodup)
    (g : Option String) :
    l.countP (fun x => x == g) = if g ∈ l then 1 else 0 := by
  induction l with
  | nil => simp
  | cons a as ih =>
      rw [List.countP_cons]
      rcases List.nodup_cons.mp hl with ⟨ha, has⟩
      rw [ih has]
      by_cases hag : a = g
      · subst hag
        simp [ha, List.mem_cons]
      · have hga : ¬ g = a := fun h => hag h.symm
        simp [hag, hga, List.mem_cons]

/-- Counting a gene key among the output pairs reduces to counting it
among the group keys. -/
theorem countP_fst_rankRows (rows : List DbRow) (g : Option String) :
    (rankRows rows).countP (fun p => p.1 == g)
      = (geneKeys rows).countP (fun x => x == g) := by
  unfold rankRows
  rw [List.countP_map]
  rfl

/-- Claim C6 as amended: the ranked output has exactly one row per
distinct gene *value* — the NULL gene included — among the records with a
non-NULL score; records with unresolved gene or sequence length are not
excluded.  For a gene whose score-bearing records all share the resolved
sequence length `L ≠ 0`, the output row carries
`sum(score) / L * 1000`. -/
theorem c6_amended :
    (∀ (rows : List DbRow) (g : Option String),
        (print_results rows).countP (fun p => p.1 == g)
          = if g ∈ (scoredOf rows).map DbRow.gene then 1 else 0)
    ∧ (∀ (rows : List DbRow) (g : Option String) (L : Int),
        g ∈ (scoredOf rows).map DbRow.gene →
        (∀ r ∈ groupRows rows g, r.seqlen = some L) →
        L ≠ 0 →
        (g, some ((((groupRows rows g).map (fun r => r.pph2_score.getD 0)).sum)
            / (L : ℚ) * 1000)) ∈ print_results rows) := by
  constructor
  · intro rows g
    rw [(print_results_perm rows).countP_eq, countP_fst_rankRows]
    unfold geneKeys
    rw [countP_key_of_nodup _ (List.nodup_dedup _) g]
    by_cases hm : g ∈ (scoredOf rows).map DbRow.gene
    · rw [if_pos hm, if_pos (List.mem_dedup.mpr hm)]
    · rw [if_neg hm, if_neg (fun h' => hm (List.mem_dedup.mp h'))]
  · intro rows g L hg hsl hL
    have hgk : g ∈ geneKeys rows := List.mem_dedup.mpr hg
    obtain ⟨r, hr, hrg⟩ := List.mem_map.mp hg
    have hrgrp : r ∈ groupRows rows g :=
      List.mem_filter.mpr ⟨hr, by simp [hrg]⟩
    have hne : groupRows rows g ≠ [] := List.ne_nil_of_mem hrgrp
    have hseq : groupSeqlen rows g = some L := by
      unfold groupSeqlen
      rw [List.getLast?_eq_getLast_of_ne_nil hne]
      exact hsl _ (List.getLast_mem hne)
    have hscore : groupScore rows g
        = some ((((groupRows rows g).map (fun r => r.pph2_score.getD 0)).sum)
            / (L : ℚ) * 1000) := by
      simp only [groupScore, hseq]
      rw [if_neg hL]
    have hmem : (g, groupScore rows g) ∈ rankRows rows :=
      List.mem_map_of_mem _ hgk
    rw [hscore] at hmem
    exact (print_results_perm rows).mem_iff.mpr hmem

/-- Witness for the amended claim C6: the `BRCA1` group of `rowsW`
(two scored records, shared sequence length 1863) yields exactly one
output row carrying the normalized sum. -/
theorem c6_amended_witness :
    (some "BRCA1",
      some ((((groupRows rowsW (some "BRCA1")).map
          (fun r => r.pph2_score.getD 0)).sum) / ((1863 : Int) : ℚ) * 1000))
      ∈ print_results rowsW
    ∧ (print_results rowsW).countP (fun p => p.1 == some "BRCA1") = 1 := by
  constructor
  · exact c6_amended.2 rowsW (some "BRCA1") 1863 (by decide) (by decide) (by decide)
  · rw [c6_amended.1 rowsW (some "BRCA1"), if_pos (by decide)]

/-! ## Claim C7 -/

/-- A line with fewer than 17 cells stages nothing. -/
theorem parseLine_short {row : String} (h : (pyCells row).length < 17) :
    parseLine row = none := by
  simp only [parseLine]
  rw [if_pos h]

/-- A line with 17 or more cells stages exactly the documented fields. -/
theorem parseLine_long {row : String} (h : 17 ≤ (pyCells row).length) :
    parseLine row
      = some ((pyCells row).getD 6 "", (pyCells row).getD 7 "",
          (pyCells row).getD 8 "", (pyCells row).getD 9 "",
          (pyCells row).getD 16 "") := by
  simp only [parseLine]
  rw [if_neg (Nat.not_lt.mpr h)]

/-- Each staged record corresponds to exactly one qualifying line. -/
theorem length_filterMap_parseLine (l : List String) :
    (l.filterMap parseLine).length
      = (l.filter (fun row => 17 ≤ (pyCells row).length)).length := by
  induction l with
  | nil => rfl
  | cons a l ih =>
      rw [List.filterMap_cons, List.filter_cons]
      by_cases h : (pyCells a).length < 17
      · rw [parseLine_short h]
        have h2 : ¬ (17 ≤ (pyCells a).length) := Nat.not_le.mpr h
        simp [h2, ih]
      · have h2 : 17 ≤ (pyCells a).length := Nat.not_lt.mp h
        rw [parseLine_long h2]
        simp [h2, ih]

/-- Claim C7: the staged records are exactly the per-line extraction over
every line after the header; a line with fewer than 17 (tab-split,
trimmed) fields stages nothing, and a line with 17 or more stages exactly
one record carrying the cells at indices 6, 7, 8, 9 and 16. -/
theorem c7 (s : String) :
    update_db_with_results s = ((pySplit '\n' s).drop 1).filterMap parseLine
    ∧ (update_db_with_results s).length
        = (((pySplit '\n' s).drop 1).filter
            (fun row => 17 ≤ (pyCells row).length)).length
    ∧ ∀ row : String,
        ((pyCells row).length < 17 → parseLine row = none)
        ∧ (17 ≤ (pyCells row).length →
            parseLine row
              = some ((pyCells row).getD 6 "", (pyCells row).getD 7 "",
                  (pyCells row).getD 8 "", (pyCells row).getD 9 "",
                  (pyCells row).getD 16 "")) :=
  ⟨rfl, length_filterMap_parseLine _,
   fun _ => ⟨fun h => parseLine_short h, fun h => parseLine_long h⟩⟩

/-- Witness for claim C7 on the example given in the spec: the 17-field line whose
fields 6-9 and 16 are `P12345, 42, A, V, 0.95` stages exactly that record;
the 16-field line stages nothing; the whole file stages exactly one
record. -/
theorem c7_witness :
    parseLine rowC7 = some ("P12345", "42", "A", "V", "0.95")
    ∧ parseLine rowC7short = none
    ∧ update_db_with_results fileC7 = [("P12345", "42", "A", "V", "0.95")] := by
  refine ⟨?_, ?_, ?_⟩
  · exact (((c7 fileC7).2.2 rowC7).2 (by decide)).trans (by decide)
  · exact ((c7 fileC7).2.2 rowC7short).1 (by decide)
  · exact ((c7 fileC7).1).trans (by decide)

/-! ## Claim C8 -/

/-- Claim C8 is false on the code: the top-level handler catches the
`ServiceUnresponsive` failure, prints the message, and the script then
terminates *normally* — the exit status is 0, not non-zero (no ranking
output is emitted, that part holds). -/
theorem c8_counterexample :
    (main_flow envC8).1
      = some (TopLevel.caughtError (Exc.remote RemoteMsg.pollUnresponsive))
    ∧ ((main_flow envC8).1.map exitCodeOf) = some 0
    ∧ ((main_flow envC8).1.map stdoutOf) = some [] := by decide

/-- Claim C8 as amended: on every fatal `RemoteException` or
`LocalException` — a bad invocation, a failed submission, or the transient
poll bound — the run terminates with the exception message on standard
error, *exit status 0*, and no ranking output. -/
theorem c8_amended :
    (∀ e : Exc, exitCodeOf (TopLevel.caughtError e) = 0
        ∧ stdoutOf (TopLevel.caughtError e) = []
        ∧ stderrHasMessage (TopLevel.caughtError e) = true)
    ∧ (∀ env : RunEnv, env.argsBad = true →
        main_flow env = (some (TopLevel.caughtError Exc.localErr), []))
    ∧ (∀ (env : RunEnv) (m : RemoteMsg), env.argsBad = false → env.sid = none →
        env.submitResp = Except.error m →
        main_flow env
          = (some (TopLevel.caughtError (Exc.remote m)), [Action.submit]))
    ∧ (∀ (env : RunEnv) (s : String), env.argsBad = false → env.sid = some s →
        (pollRun env.statusDocs).out = RunOut.fatal PollErr.serviceUnresponsive →
        (main_flow env).1
          = some (TopLevel.caughtError (Exc.remote RemoteMsg.pollUnresponsive))) := by
  refine ⟨fun e => ⟨rfl, rfl, rfl⟩, ?_, ?_, ?_⟩
  · intro env h
    simp [main_flow, runPipeline, h]
  · intro env m h1 h2 h3
    simp [main_flow, runPipeline, h1, h2, h3]
  · intro env s h1 h2 hp
    simp [main_flow, runPipeline, pipelineFromPoll, h1, h2, hp]

/-- Witness for the amended claim C8 at the ten-transient-poll run. -/
theorem c8_amended_witness :
    (main_flow envC8).1
      = some (TopLevel.caughtError (Exc.remote RemoteMsg.pollUnresponsive))
    ∧ exitCodeOf (TopLevel.caughtError (Exc.remote RemoteMsg.pollUnresponsive)) = 0 :=
  ⟨c8_amended.2.2.2 envC8 "S" rfl rfl (by decide),
   (c8_amended.1 (Exc.remote RemoteMsg.pollUnresponsive)).1⟩

/-! ## Claim C9 -/

/-- The poll counter never decreases along a run. -/
theorem pollRunAux_polls_le (st : PollState) (docs : List StatusDoc)
    (acc : List Event) (n : Nat) : n ≤ (pollRunAux st docs acc n).polls := by
  induction docs generalizing st acc n with
  | nil => exact Nat.le_refl n
  | cons d ds ih =>
      simp only [pollRunAux]
      split
      · exact (Nat.le_succ n).trans (ih _ _ _)
      · split
        · exact Nat.le_succ n
        · exact Nat.le_succ n
      · exact Nat.le_succ n

/-- A run over at least one page performs at least one poll. -/
theorem pollRun_polls_pos (docs : List StatusDoc) (h : docs ≠ []) :
    0 < (pollRun docs).polls := by
  cases docs with
  | nil => exact absurd rfl h
  | cons d ds =>
      unfold pollRun
      simp only [pollRunAux]
      split
      · exact Nat.lt_of_lt_of_le Nat.zero_lt_one (pollRunAux_polls_le _ _ _ _)
      · split
        · exact Nat.zero_lt_one
        · exact Nat.zero_lt_one
      · exact Nat.zero_lt_one

/-- The post-submission pipeline never performs a submit. -/
theorem pipelineFromPoll_no_submit (env : RunEnv) :
    Action.submit ∉ (pipelineFromPoll env).2 := by
  simp only [pipelineFromPoll]
  split
  · simp [List.mem_replicate]
  · simp [List.mem_replicate]
  · simp [List.mem_replicate]
  · simp [List.mem_replicate]
  · split
    · simp [List.mem_append, List.mem_replicate]
    · split
      · simp [List.mem_append, List.mem_replicate]
      · simp [List.mem_append, List.mem_replicate]

/-- When at least one poll happens, the pipeline trace starts with a
poll. -/
theorem pipelineFromPoll_head (env : RunEnv)
    (h : 0 < (pollRun env.statusDocs).polls) :
    (pipelineFromPoll env).2.head? = some Action.poll := by
  rcases hn : (pollRun env.statusDocs).polls with _ | m
  · omega
  · simp only [pipelineFromPoll]
    split
    · rw [hn, List.replicate_succ]; rfl
    · rw [hn, List.replicate_succ]; rfl
    · rw [hn, List.replicate_succ]; rfl
    · rw [hn, List.replicate_succ]; rfl
    · split
      · rw [hn, List.replicate_succ]; rfl
      · split
        · rw [hn, List.replicate_succ]; rfl
        · rw [hn, List.replicate_succ]; rfl

/-- Claim C9: with a caller-supplied session token (and a well-formed
invocation) the submission operation is never invoked, and the first
outbound operation of the run is a poll. -/
theorem c9 (env : RunEnv) (s : String) (hargs : env.argsBad = false)
    (hsid : env.sid = some s) :
    Action.submit ∉ (main_flow env).2
    ∧ (env.statusDocs ≠ [] → (main_flow env).2.head? = some Action.poll) := by
  have htr : (main_flow env).2 = (runPipeline env).2 := by
    unfold main_flow
    rcases hq : runPipeline env with ⟨pr, t⟩
    cases pr <;> simp [hq]
  have hrp : runPipeline env = pipelineFromPoll env := by
    unfold runPipeline
    rw [hargs, hsid]
    rfl
  constructor
  · rw [htr, hrp]
    exact pipelineFromPoll_no_submit env
  · intro hdocs
    rw [htr, hrp]
    exact pipelineFromPoll_head env (pollRun_polls_pos env.statusDocs hdocs)

/-- Witness for claim C9: a run resumed from a supplied SID whose first
page reports completion. -/
theorem c9_witness :
    Action.submit ∉ (main_flow envC9).2
    ∧ (main_flow envC9).2.head? = some Action.poll :=
  ⟨(c9 envC9 "S" rfl rfl).1, (c9 envC9 "S" rfl rfl).2 (by decide)⟩

/-! ## Claim C10 -/

/-- Claim C10: a status page whose stage name is recognized but whose
position cell is not a parseable integer does not fail the interpreter:
the snapshot behaves exactly as if the position were 0, and (for any
reachable step counter) polling continues. -/
theorem c10 (st : PollState) (name c : String) (b : Bool) (i : Nat)
    (hname : listIndex name steps = some i) (hbad : pyInt? c = none)
    (h0 : -1 ≤ st.curr) (h7 : st.curr < 7) :
    pollStep st ⟨some (name, c), b⟩ = pollStep st ⟨some (name, "0"), b⟩
    ∧ (pollStep st ⟨some (name, c), b⟩).isCont = true := by
  have hc : (pyInt? c).getD 0 = (pyInt? "0").getD 0 := by rw [hbad]; rfl
  have hfalse : ¬ (st.curr ≠ -1 ∧ ¬ (0 ≤ st.curr ∧ st.curr < 7)) := by
    rintro ⟨h1, h2⟩
    exact h2 ⟨by omega, h7⟩
  constructor
  · simp only [pollStep]
    rw [hc]
  · simp only [pollStep, hname]
    by_cases hcur : st.curr = (i : Int)
    · rw [if_pos hcur]
      rfl
    · rw [if_neg hcur, if_neg hfalse]
      rfl

/-- Witness for claim C10: an unparseable position cell on the first
stage page. -/
theorem c10_witness :
    pollStep ⟨-1, 0, 0⟩ ⟨some ("(1/7) Validating input", "n/a"), false⟩
      = pollStep ⟨-1, 0, 0⟩ ⟨some ("(1/7) Validating input", "0"), false⟩
    ∧ (pollStep ⟨-1, 0, 0⟩
        ⟨some ("(1/7) Validating input", "n/a"), false⟩).isCont = true :=
  c10 ⟨-1, 0, 0⟩ "(1/7) Validating input" "n/a" false 0 (by decide) (by decide)
    (by decide) (by decide)

end PPH2
